import Mathlib

/-!
Verification development for the VDC-Display metrics core.

The definitions below are a shallow embedding of the Python modules of the repository:
`modules/shift_progress.py`, `modules/stage_breakdown.py` and
`modules/database.py`.

* Hour values (SQL floats) are modelled as rationals `ℚ`.
* The Python `int(...)` conversion (truncation toward zero) is `pyInt`.
* The SQLite tables are lists of records (`Vehicle`, `WorkOrder`,
  `ShiftSummary`, `ProductionStage`) gathered in a `DB` value, and each SQL
  query of the source is translated to an explicit aggregation over those
  lists, including the row-multiplying semantics of the `LEFT JOIN`s.
* The ambient clock (`datetime.now().hour`, `date.today()`) is passed in as
  explicit parameters `nowHour` / `dateStr`.
* The exception behaviour of `modules/database.py` is modelled with
  `Except DbError` (`get_connectionE`, `query_dfE`, `query_oneE`) and the
  the propagation in the calculators with `calculate_shift_workloadE` /
  `get_stage_breakdownE`.
-/

/-- Python `int(x)` on a real-valued `x`: truncation toward zero.
`Rat.floor` is the computable floor on `ℚ`. -/
def pyInt (q : ℚ) : ℤ := if 0 ≤ q then Rat.floor q else -(Rat.floor (-q))

/-- The shared percent-complete expression, as written (twice) in the source:
`int((completed / total * 100) if total > 0 else 0)`
(`shift_progress.py` lines 82-84 and `stage_breakdown.py` line 55). -/
def percentComplete (completed total : ℚ) : ℤ :=
  pyInt (if 0 < total then completed / total * 100 else 0)

/-- From `modules/shift_progress.py`, `get_current_shift`:
`return "day" if 6 <= hour < 18 else "night"` with `hour = datetime.now().hour`
passed explicitly. -/
def get_current_shift (hour : Nat) : String :=
  if 6 ≤ hour ∧ hour < 18 then "day" else "night"

/-- A row of the `vehicles` table. `arrival_date` stands for
`DATE(arrival_time)`, the calendar-date projection used by every query. -/
structure Vehicle where
  id : Nat
  arrival_date : String
  shift_assigned : String
  estimated_labor_hours : ℚ
  status : String
  current_stage_id : Nat
deriving DecidableEq, Repr

/-- A row of the `work_orders` table. -/
structure WorkOrder where
  vehicle_id : Nat
  actual_hours : ℚ
  estimated_hours : ℚ
  status : String
deriving DecidableEq, Repr

/-- A row of the `shift_summaries` table. -/
structure ShiftSummary where
  shift_date : String
  shift_type : String
  carryover_hours : ℚ
  created_at : Nat
deriving DecidableEq, Repr

/-- A row of the `production_stages` table. -/
structure ProductionStage where
  id : Nat
  stage_name : String
  stage_order : Int
deriving DecidableEq, Repr

/-- The read-only store the query gateway reads. -/
structure DB where
  vehicles : List Vehicle
  work_orders : List WorkOrder
  shift_summaries : List ShiftSummary
  production_stages : List ProductionStage
deriving Repr

/-- Result row of the vehicle-stats query (query 1 of
`calculate_shift_workload`). -/
structure VehicleStats where
  total_vehicles : Nat
  total_hours : ℚ
  completed_vehicles : Nat
deriving DecidableEq, Repr

/-- The `WHERE shift_assigned = ? AND DATE(arrival_time) = ?` filter shared by
queries 1 and 2 of `calculate_shift_workload`. -/
def matchesShiftDate (shift dateStr : String) (v : Vehicle) : Bool :=
  decide (v.shift_assigned = shift) && decide (v.arrival_date = dateStr)

/-- Query 1 of `calculate_shift_workload`: `COUNT(*)`,
`COALESCE(SUM(estimated_labor_hours), 0)`, and the count of rows with
`status = "delivered"` (SQL literal), over the matching vehicles. An aggregate query with no
`GROUP BY` always yields exactly one row. -/
def vehiclesQuery (db : DB) (shift dateStr : String) : VehicleStats :=
  let vs := db.vehicles.filter (matchesShiftDate shift dateStr)
  { total_vehicles := vs.length
    total_hours := (vs.map Vehicle.estimated_labor_hours).sum
    completed_vehicles := (vs.filter (fun v => decide (v.status = "delivered"))).length }

/-- Query 2 of `calculate_shift_workload`:
`SUM(actual_hours)` over `work_orders wo JOIN vehicles v ON wo.vehicle_id = v.id`
with the shift/date filter and a completed-status restriction. The inner join is kept
as a sum over all matching (work-order, vehicle) pairs. -/
def completedQuery (db : DB) (shift dateStr : String) : ℚ :=
  ((db.work_orders.filter (fun wo => decide (wo.status = "complete"))).map
    (fun wo =>
      ((db.vehicles.filter
          (fun v => decide (v.id = wo.vehicle_id) && matchesShiftDate shift dateStr v)).map
        (fun _ => wo.actual_hours)).sum)).sum

/-- Embedding of `ORDER BY created_at DESC LIMIT 1`: pick a row with maximal `created_at`
from the matching rows, or none when there are no rows. -/
def pickLatest : List ShiftSummary → Option ShiftSummary
  | [] => none
  | s :: rest =>
      match pickLatest rest with
      | none => some s
      | some t => some (if s.created_at < t.created_at then t else s)

/-- Query 3 of `calculate_shift_workload`: the `carryover_hours` field of the
most recently created `shift_summaries` row for the exact (date, shift) pair,
or `none` when no row matches. -/
def carryoverQuery (db : DB) (dateStr shift : String) : Option ℚ :=
  (pickLatest (db.shift_summaries.filter
      (fun s => decide (s.shift_date = dateStr) && decide (s.shift_type = shift)))).map
    ShiftSummary.carryover_hours

/-- The record returned by `calculate_shift_workload`. -/
structure WorkloadSummary where
  shift : String
  date : String
  new_hours : ℚ
  carryover_hours : ℚ
  total_hours : ℚ
  completed_hours : ℚ
  percent_complete : ℤ
  vehicles_total : Nat
  vehicles_completed : Nat
deriving DecidableEq, Repr

/-- The arithmetic tail of `calculate_shift_workload` (lines 56-96), as a
function of the three gateway responses. `none` for the vehicle-stats response
models the `if not vehicle_stats:` default dict; `none` for the other two
models the `... if ... else 0` defaults. -/
def calculate_shift_workload_core (shift dateStr : String)
    (vehicle_stats : Option VehicleStats) (completed_stats : Option ℚ)
    (carryover_stats : Option ℚ) : WorkloadSummary :=
  let vs := match vehicle_stats with
    | some s => s
    | none => { total_vehicles := 0, total_hours := 0, completed_vehicles := 0 }
  let completed_hours := match completed_stats with
    | some c => c
    | none => 0
  let carryover_hours := match carryover_stats with
    | some c => c
    | none => 0
  let new_hours := vs.total_hours
  let total_hours := new_hours + carryover_hours
  { shift := shift
    date := dateStr
    new_hours := new_hours
    carryover_hours := carryover_hours
    total_hours := total_hours
    completed_hours := completed_hours
    percent_complete := percentComplete completed_hours total_hours
    vehicles_total := vs.total_vehicles
    vehicles_completed := vs.completed_vehicles }

/-- From `modules/shift_progress.py`: `calculate_shift_workload` over a `DB`
snapshot. A `none` shift argument is resolved through `get_current_shift`;
queries 1 and 2 are aggregates and therefore always return a row. -/
def calculate_shift_workload (db : DB) (shiftArg : Option String)
    (dateStr : String) (nowHour : Nat) : WorkloadSummary :=
  let shift := match shiftArg with
    | some s => s
    | none => get_current_shift nowHour
  calculate_shift_workload_core shift dateStr
    (some (vehiclesQuery db shift dateStr))
    (some (completedQuery db shift dateStr))
    (carryoverQuery db dateStr shift)

/-- A row of the stage-breakdown SQL result, before the Python loop adds the
percentage. -/
structure StageRow where
  stage_name : String
  stage_order : Int
  vehicle_count : Nat
  hours_remaining : ℚ
  hours_completed : ℚ
deriving DecidableEq, Repr

/-- An element of the result list of `get_stage_breakdown`. -/
structure StageSummary where
  stage_name : String
  stage_order : Int
  vehicle_count : Nat
  hours_remaining : ℚ
  hours_completed : ℚ
  percent_complete : ℤ
deriving DecidableEq, Repr

/-- The `LEFT JOIN vehicles v ON v.current_stage_id = ps.id AND
DATE(v.arrival_time) = ? AND (? IS NULL OR v.shift_assigned = ?)` condition of
`get_stage_breakdown`, with both shift placeholders bound to the same
(possibly null) shift argument. -/
def stageVehicleMatch (dateStr : String) (shiftArg : Option String) (psId : Nat)
    (v : Vehicle) : Bool :=
  decide (v.current_stage_id = psId) && decide (v.arrival_date = dateStr) &&
    (match shiftArg with
     | none => true
     | some s => decide (v.shift_assigned = s))

/-- The vehicles joined to a given stage row. -/
def matchedVehicles (db : DB) (shiftArg : Option String) (dateStr : String)
    (psId : Nat) : List Vehicle :=
  db.vehicles.filter (stageVehicleMatch dateStr shiftArg psId)

/-- The `LEFT JOIN work_orders wo ON wo.vehicle_id = v.id` partner rows of one
vehicle. -/
def vehicleWorkOrders (db : DB) (v : Vehicle) : List WorkOrder :=
  db.work_orders.filter (fun wo => decide (wo.vehicle_id = v.id))

/-- The join rows contributed by one matched vehicle: one row per work order,
or a single row with a null work order when it has none. -/
def vehicleJoinRows (db : DB) (v : Vehicle) : List (Vehicle × Option WorkOrder) :=
  match vehicleWorkOrders db v with
  | [] => [(v, none)]
  | wos => wos.map (fun wo => (v, some wo))

/-- The rows of the group of one stage after both left joins: a single all-null
row when no vehicle matches, otherwise every (vehicle, work-order?) pair. -/
def stageJoinRows (db : DB) (shiftArg : Option String) (dateStr : String)
    (psId : Nat) : List (Option (Vehicle × Option WorkOrder)) :=
  match matchedVehicles db shiftArg dateStr psId with
  | [] => [none]
  | vs => vs.flatMap (fun v => (vehicleJoinRows db v).map some)

/-- Embedding of `COUNT(v.id)`: a row counts when its vehicle id is non-null. -/
def rowVehicleCount : Option (Vehicle × Option WorkOrder) → Nat
  | some _ => 1
  | none => 0

/-- The remaining-hours case expression of the query (estimated hours when the
work-order status is not complete, else 0); a null work order falls to the
else branch. -/
def rowRemaining : Option (Vehicle × Option WorkOrder) → ℚ
  | some (_, some wo) => if wo.status ≠ "complete" then wo.estimated_hours else 0
  | _ => 0

/-- The completed-hours case expression of the query (actual hours when the
work-order status is complete, else 0). -/
def rowCompleted : Option (Vehicle × Option WorkOrder) → ℚ
  | some (_, some wo) => if wo.status = "complete" then wo.actual_hours else 0
  | _ => 0

/-- One group of the stage-breakdown query: the aggregates of the join rows of
one stage, `GROUP BY ps.id, ps.stage_name, ps.stage_order`. -/
def stageAggRow (db : DB) (shiftArg : Option String) (dateStr : String)
    (ps : ProductionStage) : StageRow :=
  let rows := stageJoinRows db shiftArg dateStr ps.id
  { stage_name := ps.stage_name
    stage_order := ps.stage_order
    vehicle_count := (rows.map rowVehicleCount).sum
    hours_remaining := (rows.map rowRemaining).sum
    hours_completed := (rows.map rowCompleted).sum }

/-- The Python loop after the query:
`total = hours_remaining + hours_completed` and
`percent_complete = int((hours_completed / total * 100) if total > 0 else 0)`. -/
def addPercent (row : StageRow) : StageSummary :=
  let total := row.hours_remaining + row.hours_completed
  { stage_name := row.stage_name
    stage_order := row.stage_order
    vehicle_count := row.vehicle_count
    hours_remaining := row.hours_remaining
    hours_completed := row.hours_completed
    percent_complete := percentComplete row.hours_completed total }

/-- Insertion step used to model `ORDER BY ps.stage_order`. -/
def insertByOrder (p : ProductionStage) :
    List ProductionStage → List ProductionStage
  | [] => [p]
  | q :: qs =>
      if p.stage_order ≤ q.stage_order then p :: q :: qs
      else q :: insertByOrder p qs

/-- Embedding of `ORDER BY ps.stage_order`: stable insertion sort on the ordering key. -/
def sortStages : List ProductionStage → List ProductionStage
  | [] => []
  | p :: ps => insertByOrder p (sortStages ps)

/-- From `modules/stage_breakdown.py`: `get_stage_breakdown` over a `DB` snapshot:
one aggregated row per catalog stage ordered by `stage_order`, then the
percentage loop. -/
def get_stage_breakdown (db : DB) (shiftArg : Option String)
    (dateStr : String) : List StageSummary :=
  ((sortStages db.production_stages).map (stageAggRow db shiftArg dateStr)).map
    addPercent

/-- The finished entry a single catalog stage contributes. -/
def stageEntry (db : DB) (shiftArg : Option String) (dateStr : String)
    (ps : ProductionStage) : StageSummary :=
  addPercent (stageAggRow db shiftArg dateStr ps)

/-- The `ORDER BY` comparison on catalog stages. -/
def stageLe (a b : ProductionStage) : Prop := a.stage_order ≤ b.stage_order

/-- The failure modes of `modules/database.py`: a missing store file
(`FileNotFoundError`) and a failing query against an available store
(`sqlite3` errors). -/
inductive DbError where
  | fileNotFound (path : String)
  | queryFailure (msg : String)
deriving DecidableEq, Repr

/-- From `modules/database.py`, `get_connection`: raise `FileNotFoundError` when
the configured store path does not exist, otherwise hand out the (read-only)
connection. -/
def get_connectionE (storeExists : Bool) (path : String) : Except DbError Unit :=
  if storeExists then Except.ok () else Except.error (DbError.fileNotFound path)

/-- From `modules/database.py`, `query_df`: open the connection, then execute the
statement; `execResult` is the outcome the store gives for this SQL string and
parameter tuple. Nothing is caught. -/
def query_dfE {α : Type} (storeExists : Bool) (path : String)
    (execResult : Except DbError (List α)) : Except DbError (List α) := do
  let _ ← get_connectionE storeExists path
  execResult

/-- From `modules/database.py`, `query_one`:
`results = query_df(sql, params); return results[0] if results else None`. -/
def query_oneE {α : Type} (storeExists : Bool) (path : String)
    (execResult : Except DbError (List α)) : Except DbError (Option α) := do
  let results ← query_dfE storeExists path execResult
  pure results.head?

/-- The function `calculate_shift_workload` as the composition of its three
gateway calls: the outcome of each query is consumed in source order and any raised error
propagates unchanged — the function body has no `try`/`except`. -/
def calculate_shift_workloadE (shift dateStr : String)
    (q1 : Except DbError (Option VehicleStats))
    (q2 q3 : Except DbError (Option ℚ)) : Except DbError WorkloadSummary := do
  let vehicle_stats ← q1
  let completed_stats ← q2
  let carryover_stats ← q3
  pure (calculate_shift_workload_core shift dateStr vehicle_stats
    completed_stats carryover_stats)

/-- The function `get_stage_breakdown` as the composition of its single gateway call with
the percentage loop; a query error propagates unchanged. -/
def get_stage_breakdownE (q : Except DbError (List StageRow)) :
    Except DbError (List StageSummary) := do
  let results ← q
  pure (results.map addPercent)

/-- All hour-valued columns of a store snapshot are nonnegative. -/
def nonnegHours (db : DB) : Prop :=
  (∀ v ∈ db.vehicles, 0 ≤ v.estimated_labor_hours) ∧
  (∀ wo ∈ db.work_orders, 0 ≤ wo.actual_hours ∧ 0 ≤ wo.estimated_hours) ∧
  (∀ s ∈ db.shift_summaries, 0 ≤ s.carryover_hours)

/-- An empty store snapshot. -/
def dbEmpty : DB :=
  { vehicles := [], work_orders := [], shift_summaries := [],
    production_stages := [] }

/-- A store with one day-shift vehicle in stage 1 carrying two open work
orders. -/
def dbTwoWorkOrders : DB :=
  { vehicles := [{ id := 1, arrival_date := "2026-01-16", shift_assigned := "day",
                   estimated_labor_hours := 4, status := "in_progress",
                   current_stage_id := 1 }]
    work_orders := [{ vehicle_id := 1, actual_hours := 2, estimated_hours := 3,
                      status := "in_progress" },
                    { vehicle_id := 1, actual_hours := 1, estimated_hours := 2,
                      status := "in_progress" }]
    shift_summaries := []
    production_stages := [{ id := 1, stage_name := "Installation",
                            stage_order := 1 }] }

/-- A store where the completed work-order hours exceed the estimated vehicle
hours: one day-shift vehicle estimated at 1 hour whose single work order is
complete with 50 actual hours. -/
def dbOverComplete : DB :=
  { vehicles := [{ id := 1, arrival_date := "2026-01-16", shift_assigned := "day",
                   estimated_labor_hours := 1, status := "in_progress",
                   current_stage_id := 1 }]
    work_orders := [{ vehicle_id := 1, actual_hours := 50, estimated_hours := 1,
                      status := "complete" }]
    shift_summaries := []
    production_stages := [] }

/-- A store whose stage catalog arrives out of order and has no vehicles. -/
def dbTwoStages : DB :=
  { vehicles := []
    work_orders := []
    shift_summaries := []
    production_stages := [{ id := 7, stage_name := "PPO", stage_order := 2 },
                          { id := 3, stage_name := "Installation",
                            stage_order := 1 }] }

/-- A store with a single night-shift vehicle in stage 1. -/
def dbNightVehicle : DB :=
  { vehicles := [{ id := 2, arrival_date := "2026-01-16",
                   shift_assigned := "night", estimated_labor_hours := 5,
                   status := "in_progress", current_stage_id := 1 }]
    work_orders := []
    shift_summaries := []
    production_stages := [{ id := 1, stage_name := "Installation",
                            stage_order := 1 }] }

theorem ratFloor_eq_floor (q : ℚ) : Rat.floor q = ⌊q⌋ := by
  rw [Rat.floor_def, Rat.floor_def']

theorem pyInt_of_nonneg (q : ℚ) (h : 0 ≤ q) : pyInt q = ⌊q⌋ := by
  rw [pyInt, if_pos h, ratFloor_eq_floor]

theorem pyInt_zero : pyInt 0 = 0 := by
  rw [pyInt_of_nonneg 0 le_rfl]
  exact Int.floor_zero

theorem pyInt_nonneg (q : ℚ) (h : 0 ≤ q) : 0 ≤ pyInt q := by
  rw [pyInt_of_nonneg q h]
  exact Int.floor_nonneg.mpr h

theorem pyInt_le_of_le_cast (q : ℚ) (n : ℤ) (h0 : 0 ≤ q) (h : q ≤ (n : ℚ)) :
    pyInt q ≤ n := by
  rw [pyInt_of_nonneg q h0]
  exact (Int.floor_le_floor h).trans_eq (Int.floor_intCast n)

/-- C1: the percent-complete computation shared by both calculators returns
`⌊completed / total * 100⌋` when `total > 0` and exactly `0` when `total = 0`,
for `0 ≤ completed ≤ total`; it is a total function, never an error. -/
theorem percentComplete_floor_spec (completed total : ℚ)
    (h0 : 0 ≤ completed) (h1 : completed ≤ total) :
    (0 < total → percentComplete completed total = ⌊completed / total * 100⌋) ∧
    (total = 0 → percentComplete completed total = 0) := by
  constructor
  · intro ht
    rw [percentComplete, if_pos ht]
    exact pyInt_of_nonneg _ (mul_nonneg (div_nonneg h0 ht.le) (by norm_num))
  · intro ht
    rw [percentComplete, if_neg (by rw [ht]; exact lt_irrefl 0)]
    exact pyInt_zero

/-- Witness for C1 at `completed = 1`, `total = 3`. -/
theorem percentComplete_floor_spec_witness :
    (0:ℚ) ≤ 1 ∧ (1:ℚ) ≤ 3 ∧ percentComplete 1 3 = 33 := by
  refine ⟨by norm_num, by norm_num, ?_⟩
  rw [(percentComplete_floor_spec 1 3 (by norm_num) (by norm_num)).1 (by norm_num)]
  norm_num

/-- C5: shift resolution returns `"day"` exactly on local hours `6 ≤ h < 18`
and `"night"` otherwise; in particular hours 6 and 17 give day and hours
18, 23, 0, 5 give night. -/
theorem get_current_shift_spec (h : Nat) (hlt : h < 24) :
    ((get_current_shift h = "day") ↔ (6 ≤ h ∧ h < 18)) ∧
    ((get_current_shift h = "night") ↔ ¬ (6 ≤ h ∧ h < 18)) ∧
    get_current_shift 6 = "day" ∧ get_current_shift 17 = "day" ∧
    get_current_shift 18 = "night" ∧ get_current_shift 23 = "night" ∧
    get_current_shift 0 = "night" ∧ get_current_shift 5 = "night" := by
  have hdn : ("day" : String) ≠ "night" := by decide
  refine ⟨?_, ?_, by simp [get_current_shift], by simp [get_current_shift],
    by simp [get_current_shift], by simp [get_current_shift],
    by simp [get_current_shift], by simp [get_current_shift]⟩
  · unfold get_current_shift
    by_cases hc : 6 ≤ h ∧ h < 18 <;> simp [hc, hdn.symm]
  · unfold get_current_shift
    by_cases hc : 6 ≤ h ∧ h < 18 <;> simp [hc, hdn]

/-- Witness for C5 at hour 6. -/
theorem get_current_shift_spec_witness :
    (6:Nat) < 24 ∧ get_current_shift 6 = "day" :=
  ⟨by norm_num, (get_current_shift_spec 6 (by norm_num)).2.2.1⟩

/-- C4: in every `WorkloadSummary` — both as a function of arbitrary gateway
responses and as returned over a store snapshot — `total_hours` equals
`new_hours + carryover_hours`, and `new_hours` equals the vehicle-stats
total-hours value (zero when that response is absent). -/
theorem workload_total_hours_spec (shift dateStr : String)
    (vs : Option VehicleStats) (cs car : Option ℚ) (db : DB)
    (shiftArg : Option String) (d : String) (n : Nat) :
    ((calculate_shift_workload_core shift dateStr vs cs car).total_hours =
      (calculate_shift_workload_core shift dateStr vs cs car).new_hours +
      (calculate_shift_workload_core shift dateStr vs cs car).carryover_hours) ∧
    ((calculate_shift_workload_core shift dateStr vs cs car).new_hours =
      (match vs with | some s => s.total_hours | none => 0)) ∧
    ((calculate_shift_workload db shiftArg d n).total_hours =
      (calculate_shift_workload db shiftArg d n).new_hours +
      (calculate_shift_workload db shiftArg d n).carryover_hours) ∧
    ((calculate_shift_workload db shiftArg d n).new_hours =
      (vehiclesQuery db
        (match shiftArg with | some s => s | none => get_current_shift n)
        d).total_hours) := by
  refine ⟨?_, ?_, ?_, ?_⟩ <;>
    cases vs <;> cases shiftArg <;>
      simp [calculate_shift_workload, calculate_shift_workload_core]

/-- C8: when the carryover query finds no record, the workload summary has
`carryover_hours = 0` and `total_hours = new_hours`; no error is raised. -/
theorem carryover_absent_spec (shift dateStr : String)
    (vs : Option VehicleStats) (cs : Option ℚ) (db : DB) (d s : String)
    (n : Nat) (habsent : carryoverQuery db d s = none) :
    ((calculate_shift_workload_core shift dateStr vs cs none).carryover_hours = 0 ∧
     (calculate_shift_workload_core shift dateStr vs cs none).total_hours =
       (calculate_shift_workload_core shift dateStr vs cs none).new_hours) ∧
    ((calculate_shift_workload db (some s) d n).carryover_hours = 0 ∧
     (calculate_shift_workload db (some s) d n).total_hours =
       (calculate_shift_workload db (some s) d n).new_hours) := by
  constructor
  · cases vs <;> simp [calculate_shift_workload_core]
  · simp [calculate_shift_workload, calculate_shift_workload_core, habsent]

/-- Witness for C8 on the empty store. -/
theorem carryover_absent_spec_witness :
    carryoverQuery dbEmpty "2026-01-16" "day" = none ∧
    (calculate_shift_workload dbEmpty (some "day") "2026-01-16" 10).carryover_hours = 0 ∧
    (calculate_shift_workload dbEmpty (some "day") "2026-01-16" 10).total_hours =
      (calculate_shift_workload dbEmpty (some "day") "2026-01-16" 10).new_hours := by
  have habsent : carryoverQuery dbEmpty "2026-01-16" "day" = none := by
    simp [carryoverQuery, dbEmpty, pickLatest]
  have h := carryover_absent_spec "day" "2026-01-16" none none dbEmpty
    "2026-01-16" "day" 10 habsent
  exact ⟨habsent, h.2.1, h.2.2⟩

/-- C7: with a null shift the stage breakdown applies no shift filter — a
vehicle matches a stage exactly when its stage and arrival date match,
whatever its assigned shift — while `calculate_shift_workload` instead
resolves a null shift to the concrete current shift. -/
theorem stage_breakdown_null_shift_spec (db : DB) (d : String) (sid : Nat)
    (v : Vehicle) (n : Nat) :
    (v ∈ matchedVehicles db none d sid ↔
      v ∈ db.vehicles ∧ v.current_stage_id = sid ∧ v.arrival_date = d) ∧
    (calculate_shift_workload db none d n).shift = get_current_shift n := by
  constructor
  · simp [matchedVehicles, stageVehicleMatch, List.mem_filter, and_assoc]
  · simp [calculate_shift_workload, calculate_shift_workload_core]

/-- Witness for C7: a night-shift vehicle is aggregated by the null-shift
stage breakdown, and the workload calculator resolves hour 10 to `"day"`. -/
theorem stage_breakdown_null_shift_spec_witness :
    ({ id := 2, arrival_date := "2026-01-16", shift_assigned := "night",
       estimated_labor_hours := 5, status := "in_progress",
       current_stage_id := 1 } : Vehicle) ∈
      matchedVehicles dbNightVehicle none "2026-01-16" 1 ∧
    (calculate_shift_workload dbNightVehicle none "2026-01-16" 10).shift =
      "day" := by
  constructor
  · exact (stage_breakdown_null_shift_spec dbNightVehicle "2026-01-16" 1 _ 10).1.mpr
      ⟨by simp [dbNightVehicle], rfl, rfl⟩
  · rw [(stage_breakdown_null_shift_spec dbNightVehicle "2026-01-16" 1
      { id := 2, arrival_date := "2026-01-16", shift_assigned := "night",
        estimated_labor_hours := 5, status := "in_progress",
        current_stage_id := 1 } 10).2]
    simp [get_current_shift]

/-- C9: a missing store makes the access layer fail with the distinguishable
`fileNotFound` error whatever the query would have produced, and both
calculators propagate every query error unchanged — with no alternative
success value ever synthesized from a failed query. -/
theorem error_propagation_spec {α : Type} (path shift dateStr : String)
    (execResult : Except DbError (List α))
    (q1 : Except DbError (Option VehicleStats))
    (q2 q3 : Except DbError (Option ℚ)) (e : DbError) :
    (query_dfE false path execResult =
      Except.error (DbError.fileNotFound path)) ∧
    (query_oneE false path execResult =
      Except.error (DbError.fileNotFound path)) ∧
    (q1 = Except.error e →
      calculate_shift_workloadE shift dateStr q1 q2 q3 = Except.error e) ∧
    (∀ vs, q1 = Except.ok vs → q2 = Except.error e →
      calculate_shift_workloadE shift dateStr q1 q2 q3 = Except.error e) ∧
    (∀ vs cs, q1 = Except.ok vs → q2 = Except.ok cs → q3 = Except.error e →
      calculate_shift_workloadE shift dateStr q1 q2 q3 = Except.error e) ∧
    (∀ vs cs car, q1 = Except.ok vs → q2 = Except.ok cs → q3 = Except.ok car →
      calculate_shift_workloadE shift dateStr q1 q2 q3 =
        Except.ok (calculate_shift_workload_core shift dateStr vs cs car)) ∧
    (∀ q : Except DbError (List StageRow), q = Except.error e →
      get_stage_breakdownE q = Except.error e) := by
  refine ⟨?_, ?_, ?_, ?_, ?_, ?_, ?_⟩
  · rfl
  · rfl
  · intro h1
    rw [calculate_shift_workloadE, h1]
    rfl
  · intro vs h1 h2
    rw [calculate_shift_workloadE, h1, h2]
    rfl
  · intro vs cs h1 h2 h3
    rw [calculate_shift_workloadE, h1, h2, h3]
    rfl
  · intro vs cs car h1 h2 h3
    rw [calculate_shift_workloadE, h1, h2, h3]
    rfl
  · intro q hq
    rw [get_stage_breakdownE, hq]
    rfl

/-- Witness for C9: a concrete query failure propagates through the workload
calculator, and a missing store yields the not-found error. -/
theorem error_propagation_spec_witness :
    (query_dfE (α := VehicleStats) false "data/logistics.db"
        (Except.ok []) = Except.error (DbError.fileNotFound "data/logistics.db")) ∧
    calculate_shift_workloadE "day" "2026-01-16"
        (Except.error (DbError.queryFailure "no such table: vehicles"))
        (Except.ok (some 0)) (Except.ok none) =
      Except.error (DbError.queryFailure "no such table: vehicles") := by
  have h := error_propagation_spec (α := VehicleStats) "data/logistics.db"
    "day" "2026-01-16" (Except.ok [])
    (Except.error (DbError.queryFailure "no such table: vehicles"))
    (Except.ok (some 0)) (Except.ok none)
    (DbError.queryFailure "no such table: vehicles")
  exact ⟨h.1, h.2.2.1 rfl⟩

/-- C10: `query_one` returns the head of the list `query_df` returns on the
same arguments — `none` (not an error) when that list is empty, its first
element otherwise. -/
theorem query_one_head_spec {α : Type} (storeExists : Bool) (path : String)
    (execResult : Except DbError (List α)) (l : List α)
    (hok : query_dfE storeExists path execResult = Except.ok l) :
    (query_oneE storeExists path execResult = Except.ok l.head?) ∧
    (l = [] → query_oneE storeExists path execResult = Except.ok none) ∧
    (∀ x xs, l = x :: xs →
      query_oneE storeExists path execResult = Except.ok (some x)) := by
  have hbase : query_oneE storeExists path execResult = Except.ok l.head? := by
    rw [query_oneE]
    show (do
      let results ← query_dfE storeExists path execResult
      pure results.head?) = Except.ok l.head?
    rw [hok]
    rfl
  refine ⟨hbase, ?_, ?_⟩
  · intro hl
    rw [hbase, hl]
    rfl
  · intro x xs hl
    rw [hbase, hl]
    rfl

/-- Witness for C10 on a two-row and a zero-row result. -/
theorem query_one_head_spec_witness :
    (query_oneE true "data/logistics.db" (Except.ok [3, 7]) =
      Except.ok (some (3 : Nat))) ∧
    (query_oneE (α := Nat) true "data/logistics.db" (Except.ok []) =
      Except.ok none) := by
  have h2 := query_one_head_spec true "data/logistics.db"
    (Except.ok [(3 : Nat), 7]) [3, 7] rfl
  have h0 := query_one_head_spec (α := Nat) true "data/logistics.db"
    (Except.ok []) [] rfl
  exact ⟨h2.2.2 3 [7] rfl, h0.2.1 rfl⟩

theorem insertByOrder_perm (p : ProductionStage) (l : List ProductionStage) :
    List.Perm (insertByOrder p l) (p :: l) := by
  induction l with
  | nil => exact List.Perm.refl _
  | cons q qs ih =>
    simp only [insertByOrder]
    by_cases hle : p.stage_order ≤ q.stage_order
    · rw [if_pos hle]
    · rw [if_neg hle]
      exact (List.Perm.cons q ih).trans (List.Perm.swap p q qs)

theorem sortStages_perm (l : List ProductionStage) :
    List.Perm (sortStages l) l := by
  induction l with
  | nil => exact List.Perm.refl _
  | cons p ps ih =>
    simp only [sortStages]
    exact (insertByOrder_perm p (sortStages ps)).trans (List.Perm.cons p ih)

theorem insertByOrder_pairwise (p : ProductionStage) (l : List ProductionStage)
    (hl : List.Pairwise stageLe l) :
    List.Pairwise stageLe (insertByOrder p l) := by
  induction l with
  | nil => simp [insertByOrder]
  | cons q qs ih =>
    simp only [insertByOrder]
    rcases List.pairwise_cons.mp hl with ⟨hq, hqs⟩
    by_cases hle : p.stage_order ≤ q.stage_order
    · rw [if_pos hle]
      refine List.pairwise_cons.mpr ⟨?_, hl⟩
      intro x hx
      rcases List.mem_cons.mp hx with rfl | hx2
      · exact hle
      · exact le_trans hle (hq x hx2)
    · rw [if_neg hle]
      refine List.pairwise_cons.mpr ⟨?_, ih hqs⟩
      intro x hx
      have hx2 := (insertByOrder_perm p qs).mem_iff.mp hx
      rcases List.mem_cons.mp hx2 with rfl | hx3
      · exact le_of_lt (lt_of_not_le hle)
      · exact hq x hx3

theorem sortStages_pairwise (l : List ProductionStage) :
    List.Pairwise stageLe (sortStages l) := by
  induction l with
  | nil => simp [sortStages]
  | cons p ps ih =>
    simp only [sortStages]
    exact insertByOrder_pairwise p (sortStages ps) ih

theorem get_stage_breakdown_eq_map (db : DB) (shiftArg : Option String)
    (d : String) :
    get_stage_breakdown db shiftArg d =
      (sortStages db.production_stages).map (stageEntry db shiftArg d) := by
  rw [get_stage_breakdown, List.map_map]
  rfl

theorem stageEntry_of_no_match (db : DB) (shiftArg : Option String)
    (d : String) (ps : ProductionStage)
    (hempty : matchedVehicles db shiftArg d ps.id = []) :
    stageEntry db shiftArg d ps =
      { stage_name := ps.stage_name, stage_order := ps.stage_order,
        vehicle_count := 0, hours_remaining := 0, hours_completed := 0,
        percent_complete := 0 } := by
  have hrows : stageJoinRows db shiftArg d ps.id = [none] := by
    simp only [stageJoinRows, hempty]
  simp [stageEntry, stageAggRow, addPercent, hrows, rowVehicleCount,
    rowRemaining, rowCompleted, percentComplete, pyInt_zero]

/-- C6: the stage breakdown returns, in non-decreasing `stage_order`, exactly
one entry per catalog stage (as a permutation of the image of the catalog);
the entry of every catalog stage is present, and a stage with no matching vehicles still
appears with all-zero metrics. -/
theorem stage_breakdown_catalog_spec (db : DB) (shiftArg : Option String)
    (d : String) :
    List.Perm (get_stage_breakdown db shiftArg d)
      (db.production_stages.map (stageEntry db shiftArg d)) ∧
    List.Pairwise (fun a b => a.stage_order ≤ b.stage_order)
      (get_stage_breakdown db shiftArg d) ∧
    (get_stage_breakdown db shiftArg d).length =
      db.production_stages.length ∧
    (∀ ps ∈ db.production_stages,
      stageEntry db shiftArg d ps ∈ get_stage_breakdown db shiftArg d) ∧
    (∀ ps ∈ db.production_stages,
      matchedVehicles db shiftArg d ps.id = [] →
        stageEntry db shiftArg d ps =
          { stage_name := ps.stage_name, stage_order := ps.stage_order,
            vehicle_count := 0, hours_remaining := 0, hours_completed := 0,
            percent_complete := 0 }) := by
  have hmap := get_stage_breakdown_eq_map db shiftArg d
  refine ⟨?_, ?_, ?_, ?_, ?_⟩
  · rw [hmap]
    exact (sortStages_perm db.production_stages).map (stageEntry db shiftArg d)
  · rw [hmap]
    exact List.Pairwise.map (stageEntry db shiftArg d) (fun a b h => h)
      (sortStages_pairwise db.production_stages)
  · rw [hmap, List.length_map]
    exact (sortStages_perm db.production_stages).length_eq
  · intro ps hps
    rw [hmap]
    exact List.mem_map_of_mem (stageEntry db shiftArg d)
      ((sortStages_perm db.production_stages).mem_iff.mpr hps)
  · intro ps _ hempty
    exact stageEntry_of_no_match db shiftArg d ps hempty

/-- Witness for C6 on a two-stage catalog with no vehicles. -/
theorem stage_breakdown_catalog_spec_witness :
    (get_stage_breakdown dbTwoStages none "2026-01-16").length = 2 ∧
    stageEntry dbTwoStages none "2026-01-16"
        { id := 7, stage_name := "PPO", stage_order := 2 } =
      { stage_name := "PPO", stage_order := 2, vehicle_count := 0,
        hours_remaining := 0, hours_completed := 0, percent_complete := 0 } ∧
    stageEntry dbTwoStages none "2026-01-16"
        { id := 7, stage_name := "PPO", stage_order := 2 } ∈
      get_stage_breakdown dbTwoStages none "2026-01-16" := by
  have h := stage_breakdown_catalog_spec dbTwoStages none "2026-01-16"
  have hmem : ({ id := 7, stage_name := "PPO", stage_order := 2 } :
      ProductionStage) ∈ dbTwoStages.production_stages := by
    simp [dbTwoStages]
  refine ⟨h.2.2.1.trans (by simp [dbTwoStages]), ?_, h.2.2.2.1 _ hmem⟩
  exact h.2.2.2.2 _ hmem rfl

/-- C2, evaluation at the failing input: with a single matched vehicle that
carries two work orders, `COUNT(v.id)` over the work-order `LEFT JOIN` reports
`vehicle_count = 2` although exactly one distinct vehicle matches the stage. -/
theorem stage_vehicle_count_fanout :
    ((get_stage_breakdown dbTwoWorkOrders (some "day") "2026-01-16").map
      (fun s => s.vehicle_count)) = [2] ∧
    (matchedVehicles dbTwoWorkOrders (some "day") "2026-01-16" 1).length = 1 := by
  constructor
  · rfl
  · rfl

theorem percentComplete_nonneg (c t : ℚ) (hc : 0 ≤ c) :
    0 ≤ percentComplete c t := by
  rw [percentComplete]
  by_cases ht : 0 < t
  · rw [if_pos ht]
    exact pyInt_nonneg _ (mul_nonneg (div_nonneg hc ht.le) (by norm_num))
  · rw [if_neg ht, pyInt_zero]

theorem percentComplete_le_100 (c t : ℚ) (hc : 0 ≤ c) (hct : c ≤ t) :
    percentComplete c t ≤ 100 := by
  rw [percentComplete]
  by_cases ht : 0 < t
  · rw [if_pos ht]
    have hq0 : 0 ≤ c / t * 100 :=
      mul_nonneg (div_nonneg hc ht.le) (by norm_num)
    have hdiv : c / t ≤ 1 := (div_le_one ht).mpr hct
    have hle : c / t * 100 ≤ ((100 : ℤ) : ℚ) := by
      push_cast
      calc c / t * 100 ≤ 1 * 100 :=
            mul_le_mul_of_nonneg_right hdiv (by norm_num)
        _ = 100 := one_mul 100
    exact pyInt_le_of_le_cast _ 100 hq0 hle
  · rw [if_neg ht, pyInt_zero]
    norm_num

theorem completedQuery_nonneg (db : DB) (shift d : String)
    (h : ∀ wo ∈ db.work_orders, 0 ≤ wo.actual_hours) :
    0 ≤ completedQuery db shift d := by
  apply List.sum_nonneg
  intro x hx
  rcases List.mem_map.mp hx with ⟨wo, hwo, rfl⟩
  apply List.sum_nonneg
  intro y hy
  rcases List.mem_map.mp hy with ⟨v, _, rfl⟩
  exact h wo (List.mem_filter.mp hwo).1

theorem stageJoinRows_wo_mem (db : DB) (sa : Option String) (d : String)
    (sid : Nat) (r : Option (Vehicle × Option WorkOrder))
    (hr : r ∈ stageJoinRows db sa d sid) (v : Vehicle) (wo : WorkOrder)
    (heq : r = some (v, some wo)) : wo ∈ db.work_orders := by
  subst heq
  simp only [stageJoinRows] at hr
  rcases hmv : matchedVehicles db sa d sid with _ | ⟨a, l⟩ <;> rw [hmv] at hr
  · simp at hr
  · rcases List.mem_flatMap.mp hr with ⟨v2, _, hin⟩
    rcases List.mem_map.mp hin with ⟨p, hp, hps⟩
    have hp2 : p = (v, some wo) := Option.some.inj hps
    subst hp2
    simp only [vehicleJoinRows] at hp
    rcases hw : vehicleWorkOrders db v2 with _ | ⟨w, ws⟩ <;> rw [hw] at hp
    · simp at hp
    · rcases List.mem_map.mp hp with ⟨wo2, hwo2, heq2⟩
      have : wo2 = wo := by
        have := (Prod.mk.injEq _ _ _ _).mp heq2
        exact Option.some.inj this.2
      subst this
      have hmem : wo2 ∈ vehicleWorkOrders db v2 := by rw [hw]; exact hwo2
      exact (List.mem_filter.mp hmem).1

theorem stageAggRow_remaining_nonneg (db : DB) (sa : Option String)
    (d : String) (ps : ProductionStage)
    (hwo : ∀ wo ∈ db.work_orders, 0 ≤ wo.estimated_hours) :
    0 ≤ (stageAggRow db sa d ps).hours_remaining := by
  apply List.sum_nonneg
  intro x hx
  rcases List.mem_map.mp hx with ⟨r, hr, rfl⟩
  rcases r with _ | ⟨v, _ | wo⟩
  · simp [rowRemaining]
  · simp [rowRemaining]
  · have hmem := stageJoinRows_wo_mem db sa d ps.id _ hr v wo rfl
    simp only [rowRemaining]
    split
    · exact hwo wo hmem
    · exact le_refl 0

theorem stageAggRow_completed_nonneg (db : DB) (sa : Option String)
    (d : String) (ps : ProductionStage)
    (hwo : ∀ wo ∈ db.work_orders, 0 ≤ wo.actual_hours) :
    0 ≤ (stageAggRow db sa d ps).hours_completed := by
  apply List.sum_nonneg
  intro x hx
  rcases List.mem_map.mp hx with ⟨r, hr, rfl⟩
  rcases r with _ | ⟨v, _ | wo⟩
  · simp [rowCompleted]
  · simp [rowCompleted]
  · have hmem := stageJoinRows_wo_mem db sa d ps.id _ hr v wo rfl
    simp only [rowCompleted]
    split
    · exact hwo wo hmem
    · exact le_refl 0

/-- C3, counterexample: the claim fails as stated. Over the store
`dbOverComplete` (completed work-order hours 50 against 1 estimated vehicle
hour) the workload summary field `percent_complete` is 5000, far above 100. -/
theorem workload_percent_above_100 :
    100 < (calculate_shift_workload dbOverComplete (some "day") "2026-01-16"
      10).percent_complete := by
  have hc : completedQuery dbOverComplete "day" "2026-01-16" = 50 := by
    simp [completedQuery, dbOverComplete, matchesShiftDate]
  have hv : (vehiclesQuery dbOverComplete "day" "2026-01-16").total_hours = 1 := by
    simp [vehiclesQuery, dbOverComplete, matchesShiftDate]
  have hcar : carryoverQuery dbOverComplete "2026-01-16" "day" = none := rfl
  have hp : (calculate_shift_workload dbOverComplete (some "day") "2026-01-16"
      10).percent_complete = percentComplete 50 1 := by
    simp [calculate_shift_workload, calculate_shift_workload_core, hc, hv, hcar]
  rw [hp, percentComplete, if_pos (by norm_num), pyInt_of_nonneg _ (by norm_num)]
  norm_num

/-- C3, amended: over any store snapshot whose hour columns are nonnegative,
every stage summary has `percent_complete` in [0, 100], and the workload
summary has a `percent_complete` that is a nonnegative integer (it can exceed 100 when
the completed work-order hours exceed the estimated-plus-carryover total, as
`workload_percent_above_100` shows). -/
theorem percent_complete_range_spec (db : DB) (shiftArg : Option String)
    (d : String) (n : Nat) (hdb : nonnegHours db) :
    0 ≤ (calculate_shift_workload db shiftArg d n).percent_complete ∧
    ∀ s ∈ get_stage_breakdown db shiftArg d,
      0 ≤ s.percent_complete ∧ s.percent_complete ≤ 100 := by
  obtain ⟨-, hwo, -⟩ := hdb
  constructor
  · have hcq : ∀ shift, 0 ≤ completedQuery db shift d := fun shift =>
      completedQuery_nonneg db shift d (fun wo h => (hwo wo h).1)
    cases shiftArg <;>
      exact percentComplete_nonneg _ _ (hcq _)
  · intro s hs
    rw [get_stage_breakdown_eq_map] at hs
    rcases List.mem_map.mp hs with ⟨ps, _, rfl⟩
    have hr0 := stageAggRow_remaining_nonneg db shiftArg d ps
      (fun wo h => (hwo wo h).2)
    have hc0 := stageAggRow_completed_nonneg db shiftArg d ps
      (fun wo h => (hwo wo h).1)
    constructor
    · exact percentComplete_nonneg _ _ hc0
    · exact percentComplete_le_100 _ _ hc0 (le_add_of_nonneg_left hr0)

/-- Witness for the amended C3 on the nonnegative-hours store
`dbTwoWorkOrders`. -/
theorem percent_complete_range_spec_witness :
    nonnegHours dbTwoWorkOrders ∧
    0 ≤ (calculate_shift_workload dbTwoWorkOrders (some "day") "2026-01-16"
      10).percent_complete ∧
    ∀ s ∈ get_stage_breakdown dbTwoWorkOrders (some "day") "2026-01-16",
      0 ≤ s.percent_complete ∧ s.percent_complete ≤ 100 := by
  have hdb : nonnegHours dbTwoWorkOrders := by
    refine ⟨?_, ?_, ?_⟩ <;> intro x hx <;> simp [dbTwoWorkOrders] at hx
    · subst hx; norm_num
    · rcases hx with hx | hx <;> subst hx <;> norm_num
  have h := percent_complete_range_spec dbTwoWorkOrders (some "day")
    "2026-01-16" 10 hdb
  exact ⟨hdb, h.1, h.2⟩
